import Mathlib

/-!
Verification of the `hyper` C++ primitive library against its specification.

The development shallowly embeds the parts of the source that the claims
touch:

* `Counter` (src/src/Counter.cpp) — a saturating non-negative counter;
* `ReferenceCounter::decrement` (src/include/hyper/ReferenceCounter.h);
* the `SharedPointer` lifecycle (src/include/hyper/SharedPointer.h) as a
  step relation over traces of copy/expire operations on one ownership
  group;
* `DefaultDeleter` (src/include/hyper/DefaultDeleter.h) and
  `UniquePointer::expire` (src/include/hyper/UniquePointer.h);
* the dereference operators of the smart-pointer family;
* `SharedArray::operator==` (src/include/hyper/SharedArray.h);
* `Pair` comparison and move-assignment (src/include/hyper/Pair.h);
* the `byte` bitwise operators (src/include/hyper/byte.h).

Machine integers are modelled as `Nat`/`Int` with explicit `% 256` where
truncation matters; raw pointers as `Option` values (`none` is null); the
debug-mode `ASSERTF` macro as an explicit fatal outcome carrying its
message string.
-/

namespace Hyper

/-! ## Counter (src/src/Counter.cpp)

`Counter::decrement` returns the value held *before* the decrement and
never lets the stored count underflow:

    size_t Counter::decrement() noexcept {
        auto value = _count;
        if(_count > 0)
            _count--;
        return value;
    }

`Counter::increment` likewise returns the old value and adds one.
Each is modelled as `old state → (returned value, new state)`. -/

def counterIncrement (c : Nat) : Nat × Nat := (c, c + 1)

def counterDecrement (c : Nat) : Nat × Nat := (c, if c > 0 then c - 1 else c)

/-! ## ReferenceCounter::decrement (src/include/hyper/ReferenceCounter.h)

    bool decrement() noexcept {
        auto count = _counter.decrement();
        ASSERTF(count > 0, "Attempted to decrement reference count below zero");
        return count > 1;
    }

In a debug build a failed `ASSERTF` aborts the process after printing its
message; the embedding records that outcome in `assertFailed`. -/

structure RCDecrementResult where
  assertFailed : Option String
  ret : Bool
  newCount : Nat
  deriving Repr, DecidableEq

def referenceCounterDecrement (c : Nat) : RCDecrementResult :=
  let r := counterDecrement c
  { assertFailed :=
      if r.1 > 0 then none
      else some "Attempted to decrement reference count below zero"
  , ret := r.1 > 1
  , newCount := r.2 }

/-! ## SharedPointer lifecycle (src/include/hyper/SharedPointer.h)

One ownership group — a raw resource together with the `Counter` shared by
every `SharedPointer` handle wrapping it — is modelled by the count of that
counter plus the number of times `expire` has run the deleter (and
`delete`d the counter):

* construction from a raw pointer news a `Counter(1)` (lines 31–34);
* the copy constructor and copy assignment call `_counter->increment()`
  (lines 39–42, 145–150);
* `expire` (lines 81–90), on a handle still holding a counter, calls
  `_counter->decrement()` and, when the returned old value is 1, deletes
  the counter and invokes `DefaultDeleter` on the raw pointer:

      void expire() noexcept {
          if(_counter != nullptr) {
              if(1 == _counter->decrement()) {
                  delete _counter;
                  DefaultDeleter<T> deleter;
                  deleter(_rawPointer);
              }
              _counter = nullptr;
          }
      }

A run of the group is a list of copy/expire events.  An event is possible
only while at least one live handle exists (a copy is taken from a live
handle; `expire`/destruction acts on a live handle, and a second `expire`
of the same handle is a no-op because `_counter` was nulled), which
`spValidAux` enforces by tracking the number of live handles. -/

inductive SPOp where
  | copy
  | expire
  deriving Repr, DecidableEq

structure SPSys where
  count : Nat
  deleterCalls : Nat
  deriving Repr, DecidableEq

/-- One event of the group.  In `expire`, `(counterDecrement s.count).1`
and `(counterDecrement s.count).2` are the returned old value and the new
stored value of the single `_counter->decrement()` call in the source. -/
def spStep (s : SPSys) : SPOp → SPSys
  | SPOp.copy =>
      { count := (counterIncrement s.count).2, deleterCalls := s.deleterCalls }
  | SPOp.expire =>
      if (counterDecrement s.count).1 = 1 then
        { count := (counterDecrement s.count).2, deleterCalls := s.deleterCalls + 1 }
      else
        { count := (counterDecrement s.count).2, deleterCalls := s.deleterCalls }

/-- Run a group from its construction state: `new Counter(1)`, no deleter
call yet. -/
def spRun (ops : List SPOp) : SPSys :=
  List.foldl spStep { count := 1, deleterCalls := 0 } ops

def numCopies : List SPOp → Nat
  | [] => 0
  | SPOp.copy :: rest => numCopies rest + 1
  | SPOp.expire :: rest => numCopies rest

def numExpires : List SPOp → Nat
  | [] => 0
  | SPOp.copy :: rest => numExpires rest
  | SPOp.expire :: rest => numExpires rest + 1

/-- `spValidAux live ops`: every event happens while a live handle exists.
A copy adds a live handle, an expire/destruction consumes one. -/
def spValidAux : Nat → List SPOp → Bool
  | _, [] => true
  | 0, _ :: _ => false
  | live + 1, SPOp.copy :: rest => spValidAux (live + 2) rest
  | live + 1, SPOp.expire :: rest => spValidAux live rest

/-- A trace of a group that starts with the single constructing handle. -/
def spValid (ops : List SPOp) : Bool := spValidAux 1 ops

theorem spValidAux_zero (ops : List SPOp) (h : spValidAux 0 ops = true) :
    ops = [] := by
  cases ops with
  | nil => rfl
  | cons o rest => simp [spValidAux] at h

theorem spRun_aux (ops : List SPOp) : ∀ (l d : Nat),
    spValidAux (l + 1) ops = true →
    numExpires ops ≤ l + 1 + numCopies ops
    ∧ (List.foldl spStep { count := l + 1, deleterCalls := d } ops).count
        = l + 1 + numCopies ops - numExpires ops
    ∧ (List.foldl spStep { count := l + 1, deleterCalls := d } ops).deleterCalls
        = if numExpires ops = l + 1 + numCopies ops then d + 1 else d := by
  induction ops with
  | nil =>
    intro l d _
    refine ⟨by simp [numExpires, numCopies], by simp [numExpires, numCopies], ?_⟩
    have hne : ¬ (numExpires ([] : List SPOp) = l + 1 + numCopies ([] : List SPOp)) := by
      simp [numExpires, numCopies]
    simp [hne]
  | cons op rest ih =>
    intro l d h
    cases op with
    | copy =>
      have h2 : spValidAux (l + 2) rest = true := by
        simpa [spValidAux] using h
      have e : spStep { count := l + 1, deleterCalls := d } SPOp.copy
          = { count := l + 2, deleterCalls := d } := rfl
      rcases ih (l + 1) d h2 with ⟨ih1, ih2, ih3⟩
      refine ⟨?_, ?_, ?_⟩
      · simp only [numExpires, numCopies]
        omega
      · simp only [List.foldl_cons, e, ih2, numExpires, numCopies]
        omega
      · simp only [List.foldl_cons, e, ih3, numExpires, numCopies]
        have hiff : (numExpires rest = l + 1 + 1 + numCopies rest)
            ↔ (numExpires rest = l + 1 + (numCopies rest + 1)) := by omega
        rw [if_congr hiff rfl rfl]
    | expire =>
      cases l with
      | zero =>
        have h2 : spValidAux 0 rest = true := by
          simpa [spValidAux] using h
        have hrest : rest = [] := spValidAux_zero rest h2
        subst hrest
        have e0 : spStep { count := 1, deleterCalls := d } SPOp.expire
            = { count := 0, deleterCalls := d + 1 } := by
          simp [spStep, counterDecrement]
        refine ⟨by simp [numExpires, numCopies], ?_, ?_⟩
        · simp [List.foldl, e0, numExpires, numCopies]
        · simp [List.foldl, e0, numExpires, numCopies]
      | succ l2 =>
        have h2 : spValidAux (l2 + 1) rest = true := by
          simpa [spValidAux] using h
        have e : spStep { count := l2 + 1 + 1, deleterCalls := d } SPOp.expire
            = { count := l2 + 1, deleterCalls := d } := by
          have hne : ¬ (l2 + 1 + 1 = 1) := by omega
          have hpos : l2 + 1 + 1 > 0 := by omega
          simp [spStep, counterDecrement, hne, hpos]
        rcases ih l2 d h2 with ⟨ih1, ih2, ih3⟩
        refine ⟨?_, ?_, ?_⟩
        · simp only [numExpires, numCopies]
          omega
        · simp only [List.foldl_cons, e, ih2, numExpires, numCopies]
          omega
        · simp only [List.foldl_cons, e, ih3, numExpires, numCopies]
          have hiff : (numExpires rest = l2 + 1 + numCopies rest)
              ↔ (numExpires rest + 1 = l2 + 1 + 1 + numCopies rest) := by omega
          rw [if_congr hiff rfl rfl]

/-- Claim C1: over any valid event sequence of one ownership group —
construct from a resource, take `numCopies` copies, expire/destroy
handles, each copy incrementing and each expire of a counter-holding
handle decrementing the shared count by one — the deleter (with the
counter deletion) runs exactly once when all `1 + numCopies` handles have
expired, and never before: the deleter-call count is 1 precisely when the
number of expires equals `1 + numCopies ops`, 0 otherwise, and the shared
count always equals live handles, hitting 0 exactly at the final expire. -/
theorem sharedPointer_deleter_once (ops : List SPOp) (h : spValid ops = true) :
    (spRun ops).deleterCalls
        = (if numExpires ops = 1 + numCopies ops then 1 else 0)
    ∧ (spRun ops).count = 1 + numCopies ops - numExpires ops
    ∧ numExpires ops ≤ 1 + numCopies ops := by
  have h1 : spValidAux (0 + 1) ops = true := by
    simpa [spValid] using h
  rcases spRun_aux ops 0 0 h1 with ⟨hb, hc, hd⟩
  have hrunc : (spRun ops).count
      = (List.foldl spStep { count := 0 + 1, deleterCalls := 0 } ops).count := rfl
  have hrund : (spRun ops).deleterCalls
      = (List.foldl spStep { count := 0 + 1, deleterCalls := 0 } ops).deleterCalls := rfl
  refine ⟨?_, ?_, by omega⟩
  · rw [hrund, hd]
  · rw [hrunc, hc]

/-- Witness for claim C1 on the trace "construct, copy once, expire both
handles": the count runs 1 → 2 → 1 → 0 and the deleter fires exactly once,
at the second expire. -/
theorem sharedPointer_deleter_once_witness :
    spValid [SPOp.copy, SPOp.expire, SPOp.expire] = true
    ∧ ((spRun [SPOp.copy, SPOp.expire, SPOp.expire]).deleterCalls
        = (if numExpires [SPOp.copy, SPOp.expire, SPOp.expire]
              = 1 + numCopies [SPOp.copy, SPOp.expire, SPOp.expire]
           then 1 else 0)
      ∧ (spRun [SPOp.copy, SPOp.expire, SPOp.expire]).count
          = 1 + numCopies [SPOp.copy, SPOp.expire, SPOp.expire]
            - numExpires [SPOp.copy, SPOp.expire, SPOp.expire]
      ∧ numExpires [SPOp.copy, SPOp.expire, SPOp.expire]
          ≤ 1 + numCopies [SPOp.copy, SPOp.expire, SPOp.expire]) :=
  ⟨by decide, sharedPointer_deleter_once _ (by decide)⟩

/-- Claim C2: decrementing a reference counter at count `c ≥ 1` stores
`c - 1` and returns true exactly when the new count is still positive,
with no assertion raised; decrementing at count 0 leaves the stored count
at 0 (no underflow) and raises the fatal assertion
"Attempted to decrement reference count below zero". -/
theorem referenceCounterDecrement_spec (c : Nat) (h : 1 ≤ c) :
    ((referenceCounterDecrement c).newCount = c - 1
      ∧ (referenceCounterDecrement c).assertFailed = none
      ∧ ((referenceCounterDecrement c).ret = true ↔ 0 < c - 1))
    ∧ ((referenceCounterDecrement 0).newCount = 0
      ∧ (referenceCounterDecrement 0).assertFailed
          = some "Attempted to decrement reference count below zero") := by
  constructor
  · refine ⟨?_, ?_, ?_⟩
    · simp only [referenceCounterDecrement, counterDecrement]
      have hc : c > 0 := h
      simp [hc]
    · simp only [referenceCounterDecrement, counterDecrement]
      have hc : c > 0 := h
      simp [hc]
    · simp only [referenceCounterDecrement, counterDecrement]
      constructor
      · intro hgt
        simp only [decide_eq_true_eq] at hgt
        omega
      · intro hlt
        simp only [decide_eq_true_eq]
        omega
  · constructor
    · rfl
    · rfl

/-- Witness for claim C2 at the concrete count 2: the decrement stores 1,
raises no assertion, and returns true since another reference remains. -/
theorem referenceCounterDecrement_spec_witness :
    (1 : Nat) ≤ 2
    ∧ (((referenceCounterDecrement 2).newCount = 2 - 1
        ∧ (referenceCounterDecrement 2).assertFailed = none
        ∧ ((referenceCounterDecrement 2).ret = true ↔ 0 < 2 - 1))
      ∧ ((referenceCounterDecrement 0).newCount = 0
        ∧ (referenceCounterDecrement 0).assertFailed
            = some "Attempted to decrement reference count below zero")) :=
  ⟨by decide, referenceCounterDecrement_spec 2 (by decide)⟩

/-! ## SharedPointer handles (src/include/hyper/SharedPointer.h)

A single handle is its two data members: `_counter` (a pointer to the
group's `Counter`; `none` models `nullptr`) and `_rawPointer` (`none`
models null, `some a` a pointer with pointee address `a`).  The count of
the referenced counter is threaded separately, since it lives outside the
handle and is shared. -/

structure SPHandle where
  counter : Option Unit
  raw : Option Nat
  deriving Repr, DecidableEq

/-- Default constructor (lines 23–26): `_counter(new Counter(1)),
_rawPointer(nullptr)`.  Returns the handle and the fresh counter's count. -/
def spDefaultCtor : SPHandle × Nat :=
  ({ counter := some (), raw := none }, 1)

/-- General constructor (lines 31–34): `_counter(new Counter(1)),
_rawPointer(rawPointer)`. -/
def spCtorFromRaw (rawPointer : Option Nat) : SPHandle × Nat :=
  ({ counter := some (), raw := rawPointer }, 1)

/-- `expire` (lines 81–90) on a handle whose counter holds count `c`.
Returns the handle afterwards, the counter's count afterwards, and whether
the deleter ran.  When the old count was 1, `DefaultDeleter` nulls
`_rawPointer` through its reference parameter; otherwise `_rawPointer` is
untouched.  `_counter` is nulled in either case; on a handle already
holding no counter the whole body is skipped. -/
def spExpire (s : SPHandle) (c : Nat) : SPHandle × Nat × Bool :=
  match s.counter with
  | none => (s, c, false)
  | some _ =>
      if (counterDecrement c).1 = 1 then
        ({ counter := none, raw := none }, (counterDecrement c).2, true)
      else
        ({ counter := none, raw := s.raw }, (counterDecrement c).2, false)

/-- `reset` (lines 96–100): `expire(); _counter = new Counter(1);
_rawPointer = rawPointer;`.  Returns the handle afterwards, the old
counter's count after the expire, the fresh counter's count, and whether
the expire ran the deleter. -/
def spReset (s : SPHandle) (c : Nat) (rawPointer : Option Nat) :
    SPHandle × Nat × Nat × Bool :=
  let e := spExpire s c
  ({ counter := some (), raw := rawPointer }, e.2.1, 1, e.2.2)

/-- Move constructor (lines 57–60): `_counter(other._counter),
_rawPointer(other._rawPointer)` then `other._counter = nullptr` — the
source's `_rawPointer` is left as it was.  Returns (destination, source
afterwards, count of the transferred counter afterwards); no
increment/decrement appears in the source body. -/
def spMoveCtor (other : SPHandle) (c : Nat) : SPHandle × SPHandle × Nat :=
  ({ counter := other.counter, raw := other.raw },
   { counter := none, raw := other.raw },
   c)

/-- `release` (lines 205–210): hands out `_counter`/`_rawPointer` and
nulls both members of the source. -/
def spRelease (s : SPHandle) : (Option Unit × Option Nat) × SPHandle :=
  ((s.counter, s.raw), { counter := none, raw := none })

/-- Move assignment (lines 169–173): `expire(); other.release(_counter,
_rawPointer);`.  `cdest` is the count of the destination's old counter,
`csrc` the count of the counter being transferred (the two counters are
distinct).  Returns (destination, source afterwards, destination's old
counter count afterwards, transferred counter count afterwards, whether
the destination's expire ran the deleter). -/
def spMoveAssign (dest : SPHandle) (cdest : Nat) (src : SPHandle) (csrc : Nat) :
    SPHandle × SPHandle × Nat × Nat × Bool :=
  let e := spExpire dest cdest
  let r := spRelease src
  ({ counter := r.1.1, raw := r.1.2 }, r.2, e.2.1, csrc, e.2.2)

/-- `operator bool` (lines 137–139): `_rawPointer != nullptr`. -/
def spBoolCast (s : SPHandle) : Bool := s.raw.isSome

/-- Counterexample to claim C3 at a concrete input: move-constructing from
a handle that holds a counter and the non-null resource pointer 42 leaves
the source's `_rawPointer` untouched, so the source's boolean conversion
is still `true` — not `false` as the claim states. -/
theorem spMoveCtor_bool_counterexample :
    spBoolCast (spMoveCtor { counter := some (), raw := some 42 } 1).2.1 = true := rfl

/-- Claim C3, amended: move-constructing or move-assigning from a handle
`s` transfers `s`'s counter and raw pointer to the destination without
touching the count, and leaves the source holding no counter, so that a
subsequent expire/destruction of the source is a no-op (no decrement, no
deleter call).  After move assignment the source's raw pointer is also
nulled, so its boolean conversion is `false`; after move construction the
source's raw pointer is left unchanged, so its boolean conversion stays
whatever it was before the move. -/
theorem spMove_transfers_and_empties (s dest : SPHandle) (cdest csrc : Nat) :
    ((spMoveCtor s csrc).1 = { counter := s.counter, raw := s.raw }
      ∧ (spMoveCtor s csrc).2.2 = csrc
      ∧ (spMoveCtor s csrc).2.1.counter = none
      ∧ spExpire (spMoveCtor s csrc).2.1 csrc = ((spMoveCtor s csrc).2.1, csrc, false)
      ∧ spBoolCast (spMoveCtor s csrc).2.1 = spBoolCast s)
    ∧ ((spMoveAssign dest cdest s csrc).1 = { counter := s.counter, raw := s.raw }
      ∧ (spMoveAssign dest cdest s csrc).2.2.2.1 = csrc
      ∧ (spMoveAssign dest cdest s csrc).2.1 = { counter := none, raw := none }
      ∧ spBoolCast (spMoveAssign dest cdest s csrc).2.1 = false
      ∧ spExpire (spMoveAssign dest cdest s csrc).2.1 csrc
          = ((spMoveAssign dest cdest s csrc).2.1, csrc, false)) := by
  refine ⟨⟨rfl, rfl, rfl, rfl, rfl⟩, ⟨rfl, rfl, rfl, rfl, rfl⟩⟩

/-- Claim C9: a default-constructed SharedPointer wraps null yet still
allocates a fresh counter at count 1; `reset(p)` always installs a fresh
counter at count 1 whether or not `p` is null; and along any valid trace
of a group on which some handle is still live (fewer expires than
`1 + numCopies`, i.e. expires ≤ copies), the shared count stays at least
1. -/
theorem sharedPointer_count_ge_one (s : SPHandle) (c : Nat)
    (p : Option Nat) (ops : List SPOp) (h : spValid ops = true)
    (hlive : numExpires ops ≤ numCopies ops) :
    (spDefaultCtor = ({ counter := some (), raw := none }, 1)
      ∧ (spReset s c p).1 = { counter := some (), raw := p }
      ∧ (spReset s c p).2.2.1 = 1)
    ∧ 1 ≤ (spRun ops).count := by
  refine ⟨⟨rfl, rfl, rfl⟩, ?_⟩
  have h1 : spValidAux (0 + 1) ops = true := by
    simpa [spValid] using h
  rcases spRun_aux ops 0 0 h1 with ⟨hb, hc, hd⟩
  have hrunc : (spRun ops).count
      = (List.foldl spStep { count := 0 + 1, deleterCalls := 0 } ops).count := rfl
  rw [hrunc, hc]
  omega

/-- Witness for claim C9: on the trace "construct, copy, expire one
handle" one live handle remains and the count is still 1; reset on a
handle holding count 3 and a fresh null handle both carry a count-1
counter. -/
theorem sharedPointer_count_ge_one_witness :
    spValid [SPOp.copy, SPOp.expire] = true
    ∧ numExpires [SPOp.copy, SPOp.expire] ≤ numCopies [SPOp.copy, SPOp.expire]
    ∧ ((spDefaultCtor = ({ counter := some (), raw := none }, 1)
        ∧ (spReset { counter := some (), raw := some 7 } 3 none).1
            = { counter := some (), raw := none }
        ∧ (spReset { counter := some (), raw := some 7 } 3 none).2.2.1 = 1)
      ∧ 1 ≤ (spRun [SPOp.copy, SPOp.expire]).count) :=
  ⟨by decide, by decide,
   sharedPointer_count_ge_one { counter := some (), raw := some 7 } 3 none
     [SPOp.copy, SPOp.expire] (by decide) (by decide)⟩

/-! ## SharedArray equality (src/include/hyper/SharedArray.h)

A live `SharedArray` handle stores only `_impl`, a pointer to its inner
`ReferenceCounter`, and the raw array pointer is read from the counter via
`getReference()`.  Counter identities are modelled as `Nat` and the
environment `refOf` maps each counter identity to the array pointer it
stores (`none` is null).

    constexpr bool operator==(const SharedArray &other) const noexcept
    {
        if(_impl == other._impl)
            return true;
        else
            return _impl->getReference() == other._impl->getReference();
    }

`operator!=` (lines 199–202) is `return !(this == other);`, which compares
the `this` pointer against the reference `other`; no viable `operator==`
exists between `const SharedArray *` and `const SharedArray &`, so every
instantiation of `operator!=` is ill-formed and it has no embeddable
value semantics (its doc comment describes value inequality). -/

def sharedArrayEq (refOf : Nat → Option Nat) (a b : Nat) : Bool :=
  if a = b then true
  else decide (refOf a = refOf b)

/-- Claim C4, `operator==` leg: two live SharedArray handles with counter
identities `a` and `b` compare equal exactly when they reference the same
underlying array pointer (which includes both referencing null). -/
theorem sharedArrayEq_iff_same_pointer (refOf : Nat → Option Nat) (a b : Nat) :
    sharedArrayEq refOf a b = true ↔ refOf a = refOf b := by
  unfold sharedArrayEq
  split
  · rename_i hab
    subst hab
    simp
  · simp

/-! ## Dereference operators of the smart-pointer family

Every dereference operator in the library has the same shape: assert the
stored raw pointer non-null with the message "Attempt to dereference null
pointer" (debug builds abort), then hand out a reference into the
resource.  Scalar pointees are `Option α`; an owned array is modelled as
`Option (Nat → α)` because the C++ subscript `_rawPointer[index]` is
unchecked. -/

inductive Deref (α : Type) where
  | fatal (msg : String)
  | ok (val : α)
  deriving Repr, DecidableEq

/-- `SharedPointer::operator*` (SharedPointer.h lines 119–122). -/
def sharedPointerStar {α : Type} (rawPointer : Option α) : Deref α :=
  match rawPointer with
  | none => Deref.fatal "Attempt to dereference null pointer"
  | some v => Deref.ok v

/-- `UniquePointer::operator*` (UniquePointer.h lines 96–99). -/
def uniquePointerStar {α : Type} (rawPointer : Option α) : Deref α :=
  match rawPointer with
  | none => Deref.fatal "Attempt to dereference null pointer"
  | some v => Deref.ok v

/-- `ScopedPointer::operator*` (ScopedPointer.h lines 87–91). -/
def scopedPointerStar {α : Type} (ptr : Option α) : Deref α :=
  match ptr with
  | none => Deref.fatal "Attempt to dereference null pointer"
  | some v => Deref.ok v

/-- `SharedPointer::operator->` (SharedPointer.h lines 129–132): same
assert, then returns `_rawPointer` — i.e. hands out the (non-null)
pointer to the resource, modelled by the pointee it designates. -/
def sharedPointerArrow {α : Type} (rawPointer : Option α) : Deref α :=
  match rawPointer with
  | none => Deref.fatal "Attempt to dereference null pointer"
  | some v => Deref.ok v

/-- `UniquePointer::operator->` (UniquePointer.h lines 106–109). -/
def uniquePointerArrow {α : Type} (rawPointer : Option α) : Deref α :=
  match rawPointer with
  | none => Deref.fatal "Attempt to dereference null pointer"
  | some v => Deref.ok v

/-- `ScopedPointer::operator->` (ScopedPointer.h lines 98–102). -/
def scopedPointerArrow {α : Type} (ptr : Option α) : Deref α :=
  match ptr with
  | none => Deref.fatal "Attempt to dereference null pointer"
  | some v => Deref.ok v

/-- `ScopedArray::operator[]` (ScopedArray.h lines 67–71). -/
def scopedArrayIndex {α : Type} (ptr : Option (Nat → α)) (index : Nat) : Deref α :=
  match ptr with
  | none => Deref.fatal "Attempt to dereference null pointer"
  | some arr => Deref.ok (arr index)

/-- `UniquePointer<T[]>::operator[]` (UniquePointer.h lines 241–244). -/
def uniquePointerIndex {α : Type} (rawPointer : Option (Nat → α)) (index : Nat) :
    Deref α :=
  match rawPointer with
  | none => Deref.fatal "Attempt to dereference null pointer"
  | some arr => Deref.ok (arr index)

/-- `SharedPointer<T[]>::operator[]` (SharedPointer.h lines 324–327). -/
def sharedPointerIndex {α : Type} (rawPointer : Option (Nat → α)) (index : Nat) :
    Deref α :=
  match rawPointer with
  | none => Deref.fatal "Attempt to dereference null pointer"
  | some arr => Deref.ok (arr index)

/-- Claim C5: for every smart-pointer flavour, dereferencing via `*`,
`->` or indexing via `[]` on a null resource pointer signals the fatal
assertion "Attempt to dereference null pointer", and on a non-null
pointer yields a reference into the resource (for subscripting, the
element at the given index). -/
theorem deref_null_fatal_nonnull_ok {α : Type} (v : α) (arr : Nat → α) (i : Nat) :
    sharedPointerStar (none : Option α)
        = Deref.fatal "Attempt to dereference null pointer"
    ∧ sharedPointerStar (some v) = Deref.ok v
    ∧ uniquePointerStar (none : Option α)
        = Deref.fatal "Attempt to dereference null pointer"
    ∧ uniquePointerStar (some v) = Deref.ok v
    ∧ scopedPointerStar (none : Option α)
        = Deref.fatal "Attempt to dereference null pointer"
    ∧ scopedPointerStar (some v) = Deref.ok v
    ∧ sharedPointerArrow (none : Option α)
        = Deref.fatal "Attempt to dereference null pointer"
    ∧ sharedPointerArrow (some v) = Deref.ok v
    ∧ uniquePointerArrow (none : Option α)
        = Deref.fatal "Attempt to dereference null pointer"
    ∧ uniquePointerArrow (some v) = Deref.ok v
    ∧ scopedPointerArrow (none : Option α)
        = Deref.fatal "Attempt to dereference null pointer"
    ∧ scopedPointerArrow (some v) = Deref.ok v
    ∧ scopedArrayIndex (none : Option (Nat → α)) i
        = Deref.fatal "Attempt to dereference null pointer"
    ∧ scopedArrayIndex (some arr) i = Deref.ok (arr i)
    ∧ uniquePointerIndex (none : Option (Nat → α)) i
        = Deref.fatal "Attempt to dereference null pointer"
    ∧ uniquePointerIndex (some arr) i = Deref.ok (arr i)
    ∧ sharedPointerIndex (none : Option (Nat → α)) i
        = Deref.fatal "Attempt to dereference null pointer"
    ∧ sharedPointerIndex (some arr) i = Deref.ok (arr i) :=
  ⟨rfl, rfl, rfl, rfl, rfl, rfl, rfl, rfl, rfl, rfl, rfl, rfl,
   rfl, rfl, rfl, rfl, rfl, rfl⟩

/-! ## DefaultDeleter and UniquePointer::expire

`DefaultDeleter<T>::operator()(T *&instance)` (DefaultDeleter.h lines
22–29) deletes only a non-null pointer and nulls the reference
afterwards.  The state is (pointer, number of delete operations run so
far); `DefaultDeleter<T[]>` (lines 45–52) has the identical shape with
`delete[]`. -/

def defaultDeleterRun {α : Type} (ptr : Option α) (frees : Nat) : Option α × Nat :=
  match ptr with
  | some _ => (none, frees + 1)
  | none => (none, frees)

def defaultDeleterArrayRun {α : Type} (ptr : Option α) (frees : Nat) :
    Option α × Nat :=
  match ptr with
  | some _ => (none, frees + 1)
  | none => (none, frees)

/-- `UniquePointer::expire` (UniquePointer.h lines 68–71): runs
`DefaultDeleter<T>` on `_rawPointer` (passed by reference, so the member
is nulled whenever the deleter frees). -/
def uniquePointerExpire {α : Type} (s : Option α × Nat) : Option α × Nat :=
  defaultDeleterRun s.1 s.2

/-- Claim C6: applying DefaultDeleter to a pointer frees the pointee
exactly when the pointer was non-null, and in all cases leaves the pointer
null afterwards (same for the array specialization); consequently
`UniquePointer::expire` is idempotent — a second expire finds a null
pointer and frees nothing, so the resource is released exactly once. -/
theorem defaultDeleter_null_and_expire_idempotent {α : Type}
    (ptr : Option α) (frees : Nat) (v : α) :
    (defaultDeleterRun ptr frees).1 = none
    ∧ ((defaultDeleterRun ptr frees).2 = frees + 1 ↔ ptr ≠ none)
    ∧ ((defaultDeleterRun ptr frees).2 = frees ↔ ptr = none)
    ∧ defaultDeleterArrayRun ptr frees = defaultDeleterRun ptr frees
    ∧ uniquePointerExpire (uniquePointerExpire (ptr, frees))
        = uniquePointerExpire (ptr, frees)
    ∧ (uniquePointerExpire (uniquePointerExpire ((some v : Option α), frees))).2
        = frees + 1 := by
  cases ptr with
  | none => exact ⟨rfl, by simp [defaultDeleterRun], by simp [defaultDeleterRun],
      rfl, rfl, rfl⟩
  | some w => exact ⟨rfl, by simp [defaultDeleterRun], by simp [defaultDeleterRun],
      rfl, rfl, rfl⟩

/-! ## Pair (src/include/hyper/Pair.h)

    constexpr inline bool operator==(Pair const &other) const noexcept {
        return first == other.first && second == other.second;
    }
    constexpr inline bool operator<(Pair const &other) const noexcept {
        return first < other.first || (!(other.first < first) && second < other.second);
    }

`operator!=` (lines 80–82) is `return !(this == other);` — the same
`this`-pointer-versus-reference slip as SharedArray's `operator!=`: no
viable `operator==` exists between `const Pair *` and `const Pair &`, so
every instantiation of `operator!=` is ill-formed, while its doc comment
promises componentwise value inequality. -/

structure HPair (α β : Type) where
  first : α
  second : β
  deriving Repr, DecidableEq

def pairEq {α β : Type} [DecidableEq α] [DecidableEq β]
    (p other : HPair α β) : Bool :=
  decide (p.first = other.first) && decide (p.second = other.second)

def pairLt {α β : Type} [LinearOrder α] [LinearOrder β]
    (p other : HPair α β) : Bool :=
  decide (p.first < other.first)
    || (!(decide (other.first < p.first)) && decide (p.second < other.second))

/-- Claim C7, the legs the code implements: `Pair` equality is
componentwise and `operator<` is exactly lexicographic — under a linear
order on the components, `p < q` holds iff the first components are
ordered or they are equal and the second components are ordered — and in
particular (1,5) < (2,0), (1,5) < (1,6) and (1,5) == (1,5) all hold.  (The
`!=` leg of the claim has no value semantics: `operator!=` is ill-formed,
see the section comment.) -/
theorem pair_lexicographic {α β : Type} [LinearOrder α] [LinearOrder β]
    (p q : HPair α β) :
    (pairEq p q = true ↔ p.first = q.first ∧ p.second = q.second)
    ∧ (pairLt p q = true
        ↔ (p.first < q.first ∨ (p.first = q.first ∧ p.second < q.second)))
    ∧ pairLt (HPair.mk (1 : Int) (5 : Int)) (HPair.mk 2 0) = true
    ∧ pairLt (HPair.mk (1 : Int) (5 : Int)) (HPair.mk 1 6) = true
    ∧ pairEq (HPair.mk (1 : Int) (5 : Int)) (HPair.mk 1 5) = true := by
  refine ⟨?_, ?_, by decide, by decide, by decide⟩
  · simp [pairEq]
  · simp only [pairLt, Bool.or_eq_true, Bool.and_eq_true, Bool.not_eq_true',
      decide_eq_true_eq, decide_eq_false_iff_not]
    constructor
    · intro h
      rcases h with h | ⟨h1, h2⟩
      · exact Or.inl h
      · by_cases hlt : p.first < q.first
        · exact Or.inl hlt
        · exact Or.inr ⟨le_antisymm (not_lt.mp h1) (not_lt.mp hlt), h2⟩
    · intro h
      rcases h with h | ⟨h1, h2⟩
      · exact Or.inl h
      · refine Or.inr ⟨?_, h2⟩
        rw [h1]
        exact lt_irrefl q.first

/-- `Pair::swap` (lines 64–68) exchanges `first` and `second` with the
other pair componentwise; the result is (this afterwards, other
afterwards). -/
def pairSwap {α β : Type} (p other : HPair α β) : HPair α β × HPair α β :=
  ({ first := other.first, second := other.second },
   { first := p.first, second := p.second })

/-- `Pair::operator=(Pair&&)` (lines 127–130): `swap(other); return
*this;`. -/
def pairMoveAssign {α β : Type} (p other : HPair α β) : HPair α β × HPair α β :=
  pairSwap p other

/-- Claim C10: Pair's move assignment is implemented as a swap of
contents — afterwards the destination holds the source's former values
and the source holds the destination's former values; nothing is emptied
or destroyed. -/
theorem pairMoveAssign_is_swap {α β : Type} (p q : HPair α β) :
    (pairMoveAssign p q).1 = q ∧ (pairMoveAssign p q).2 = p :=
  ⟨rfl, rfl⟩

/-! ## byte (src/include/hyper/byte.h)

`byte` is `enum class byte : uint8`.  Each operator casts to `uint8`,
performs the operation under the usual C++ promotion to `int`, and the
`byte(...)` functional cast truncates the result back to the 8-bit
underlying type — modelled as `% 256` on `Nat`, and for `~` (whose
promoted result is negative) via two's complement on `Int` followed by
the same truncation. -/

def uint8Cast (n : Nat) : Nat := n % 256

/-- `operator<<(byte, int)` (byte.h lines 22–25). -/
def byteShl (b shift : Nat) : Nat := uint8Cast (b <<< shift)

/-- `operator>>(byte, int)` (byte.h lines 42–45). -/
def byteShr (b shift : Nat) : Nat := uint8Cast (b >>> shift)

/-- `operator|(byte, byte)` (byte.h lines 62–65). -/
def byteOr (b v : Nat) : Nat := uint8Cast (b ||| v)

/-- `operator&(byte, byte)` (byte.h lines 82–85). -/
def byteAnd (b v : Nat) : Nat := uint8Cast (b &&& v)

/-- `operator^(byte, byte)` (byte.h lines 102–105). -/
def byteXor (b v : Nat) : Nat := uint8Cast (b ^^^ v)

/-- `operator~(byte)` (byte.h lines 121–124): `~static_cast<uint8>(b)`
promotes to `int` where `~x = -x - 1`, then the cast back to the 8-bit
type reduces modulo 256. -/
def byteNot (b : Nat) : Nat := ((-(b : Int) - 1) % 256).toNat

/-- Claim C8: the byte bitwise operators agree with plain 8-bit unsigned
arithmetic truncated modulo 256: shifting left multiplies by a power of
two modulo 256, shifting right divides, or/and/xor are the bitwise
operations (already below 256 for in-range operands), complement is
`255 - b`, and the spec's examples byte(42) << 2 == byte(168),
byte(1) << 8 == byte(0) and ~byte(0) == byte(255) all hold. -/
theorem byte_ops_mod256 (b v s : Nat) (hb : b < 256) (hv : v < 256) :
    byteShl b s = (b * 2 ^ s) % 256
    ∧ byteShr b s = b / 2 ^ s
    ∧ byteOr b v = b ||| v
    ∧ byteAnd b v = b &&& v
    ∧ byteXor b v = b ^^^ v
    ∧ byteOr b v < 256 ∧ byteAnd b v < 256 ∧ byteXor b v < 256
    ∧ byteNot b = 255 - b
    ∧ byteShl 42 2 = 168 ∧ byteShl 1 8 = 0 ∧ byteNot 0 = 255 := by
  have h256 : (256 : Nat) = 2 ^ 8 := by norm_num
  have hor : b ||| v < 256 := by
    rw [h256]
    exact Nat.or_lt_two_pow (h256 ▸ hb) (h256 ▸ hv)
  have hand : b &&& v < 256 := by
    calc b &&& v ≤ b := Nat.and_le_left
    _ < 256 := hb
  have hxor : b ^^^ v < 256 := by
    rw [h256]
    exact Nat.xor_lt_two_pow (h256 ▸ hb) (h256 ▸ hv)
  have hshr : b >>> s < 256 := by
    calc b >>> s = b / 2 ^ s := Nat.shiftRight_eq_div_pow b s
    _ ≤ b := Nat.div_le_self b (2 ^ s)
    _ < 256 := hb
  refine ⟨?_, ?_, ?_, ?_, ?_, ?_, ?_, ?_, ?_, by decide, by decide, by decide⟩
  · simp [byteShl, uint8Cast, Nat.shiftLeft_eq]
  · have hdiv : b / 2 ^ s < 256 := lt_of_le_of_lt (Nat.div_le_self b (2 ^ s)) hb
    simp [byteShr, uint8Cast, Nat.shiftRight_eq_div_pow, Nat.mod_eq_of_lt hdiv]
  · simp [byteOr, uint8Cast, Nat.mod_eq_of_lt hor]
  · simp [byteAnd, uint8Cast, Nat.mod_eq_of_lt hand]
  · simp [byteXor, uint8Cast, Nat.mod_eq_of_lt hxor]
  · simpa [byteOr, uint8Cast] using Nat.mod_lt _ (by norm_num)
  · simpa [byteAnd, uint8Cast] using Nat.mod_lt _ (by norm_num)
  · simpa [byteXor, uint8Cast] using Nat.mod_lt _ (by norm_num)
  · simp only [byteNot]
    omega

/-- Witness for claim C8 at b = 42, v = 7, s = 2. -/
theorem byte_ops_mod256_witness :
    (42 : Nat) < 256 ∧ (7 : Nat) < 256
    ∧ (byteShl 42 2 = (42 * 2 ^ 2) % 256
      ∧ byteShr 42 2 = 42 / 2 ^ 2
      ∧ byteOr 42 7 = 42 ||| 7
      ∧ byteAnd 42 7 = 42 &&& 7
      ∧ byteXor 42 7 = 42 ^^^ 7
      ∧ byteOr 42 7 < 256 ∧ byteAnd 42 7 < 256 ∧ byteXor 42 7 < 256
      ∧ byteNot 42 = 255 - 42
      ∧ byteShl 42 2 = 168 ∧ byteShl 1 8 = 0 ∧ byteNot 0 = 255) :=
  ⟨by decide, by decide, byte_ops_mod256 42 7 2 (by decide) (by decide)⟩

end Hyper
